import Mathlib

set_option maxHeartbeats 1000000

/-!
Shallow embedding of the lokal backend (src/backend/main.py): the relational
state (businesses, locations, opening hours, categories, features, feature
proposals, web links, images), the read-side aggregation `get_businesses`,
the onboarding step operations (`add_business_location`,
`add_business_opening_hours`, `add_business_social_links`) and the bulk-import
orchestrator `bulk_import_business`.

Modelling conventions:
- SQL tables are lists of row structures in insertion order; surrogate keys
  are drawn from a single `nextId` counter (the source uses one sequence per
  table; only freshness matters to any property proved here).
- Geography points `ST_SetSRID(ST_MakePoint(lng, lat), 4326)` are modelled as
  `Option (Rat × Rat)` pairs `(lng, lat)`; `ST_X` is `.1`, `ST_Y` is `.2`.
  Python floats are modelled as `Rat` (no claim depends on rounding).
- psycopg2 transactions: an operation returns `Except ApiError (DB × resp)`;
  an `.error` outcome models raise-after-`conn.rollback()`, so the committed
  state visible after the call is the original `DB` (see the `*Committed`
  helpers).  `.ok (db2, r)` models `conn.commit()`.
- Python truthiness on optional strings (`if not time_str`, `if hour.open_time`,
  `request.location_name or place_name`, `any([...])`) is made explicit via
  `pyTruthy`: `None` and `""` are falsy.
- The external Mapbox geocoder (`geocode_address`) is an oracle argument
  `geo : Option (Rat × Rat × String)`; `none` models the `ValueError` raised
  when the address does not resolve or the HTTP call fails.  An injected
  `fault : Bool` models a storage-layer exception raised during the write
  phase (caught by the generic `except Exception` handler, which rolls back).
-/

/-- Python truthiness of an optional string: `None` and `""` are falsy. -/
def pyTruthy : Option String → Bool
  | none => false
  | some s => s != ""

/-- HTTP-surfaced error taxonomy of main.py.  `notFound` is status 404;
`conflict` and `validation` are both raised as status 400 (distinguished here
by raise site, following the spec's taxonomy); `unexpected` is the generic
`except Exception` 500 path. -/
inductive ApiError : Type where
  | notFound (detail : String)
  | conflict (detail : String)
  | validation (detail : String)
  | unexpected (detail : String)
deriving Repr, DecidableEq

/-- HTTP status code attached to each error by main.py. -/
def ApiError.status : ApiError → Nat
  | .notFound _ => 404
  | .conflict _ => 400
  | .validation _ => 400
  | .unexpected _ => 500

/-- Row of table `businesses`. -/
structure BusinessRow : Type where
  id : Nat
  name : String
  category_id : Option Nat
  is_verified : Bool
deriving Repr, DecidableEq

/-- Row of table `business_categories`. -/
structure CategoryRow : Type where
  id : Nat
  category : String
  description : Option String
  svg : Option String
  parent_category_id : Option Nat
deriving Repr, DecidableEq

/-- Row of table `business_locations`; `location` is the nullable geography
point as `(longitude, latitude)`. -/
structure LocationRow : Type where
  id : Nat
  business_id : Nat
  location : Option (Rat × Rat)
  location_name : Option String
  location_index : Nat
  is_public : Bool
deriving Repr, DecidableEq

/-- Row of table `business_location_opening_hours`.  Times are kept as the
strings handed to the driver (`"HH:MM:SS"`-normalised by the callers). -/
structure OpeningHoursRow : Type where
  id : Nat
  location_id : Nat
  day_of_week : Int
  open_time : Option String
  close_time : Option String
  is_closed : Bool
deriving Repr, DecidableEq

/-- Row of table `business_web_links`. -/
structure WebLinksRow : Type where
  id : Nat
  business_id : Nat
  primary_website_url : Option String
  facebook_url : Option String
  instagram_url : Option String
  x_url : Option String
  tiktok_url : Option String
deriving Repr, DecidableEq

/-- Row of table `business_images`. -/
structure ImageRow : Type where
  id : Nat
  business_id : Nat
  image_type : String
  image_index : Nat
  url : String
deriving Repr, DecidableEq

/-- Row of table `business_features`. -/
structure FeatureRow : Type where
  id : Nat
  feature : String
  description : Option String
  svg : Option String
deriving Repr, DecidableEq

/-- Row of table `business_feature_proposals`. -/
structure FeatureProposalRow : Type where
  id : Nat
  business_id : Nat
  feature_id : Nat
  feature_score : Int
  proposal_status : String
deriving Repr, DecidableEq

/-- The relational state the endpoints read and write.  `nextId` is the
surrogate-key fountain. -/
structure DB : Type where
  businesses : List BusinessRow
  categories : List CategoryRow
  locations : List LocationRow
  openingHours : List OpeningHoursRow
  webLinks : List WebLinksRow
  images : List ImageRow
  features : List FeatureRow
  featureProposals : List FeatureProposalRow
  nextId : Nat
deriving Repr, DecidableEq

/-! ## Python string primitives

`str.strip()`, `str.lower()` and `str.split(sep)` are modelled directly on the
character list with structural recursion (ASCII-faithful; Python's unicode
case folding and whitespace classes agree with these on the inputs this
backend handles). -/

/-- Drop leading whitespace characters. -/
def dropLeadingWs : List Char → List Char
  | [] => []
  | c :: cs => if c.isWhitespace then dropLeadingWs cs else c :: cs

/-- Python `str.strip()`: remove leading and trailing whitespace. -/
def pyStrip (s : String) : String :=
  ⟨((dropLeadingWs ((dropLeadingWs s.data).reverse)).reverse)⟩

/-- Python `str.lower()` (ASCII). -/
def pyLower (s : String) : String :=
  ⟨s.data.map Char.toLower⟩

/-- Helper for `pySplitChar`: accumulate the current chunk (reversed). -/
def splitOnCharAux (sep : Char) : List Char → List Char → List (List Char)
  | [], acc => [acc.reverse]
  | c :: cs, acc =>
    if c == sep then acc.reverse :: splitOnCharAux sep cs []
    else splitOnCharAux sep cs (c :: acc)

/-- Python `str.split(sep)` for a one-character separator (the source only
splits on `"-"` and `":"`): `"".split(sep) = [""]`, adjacent separators yield
empty chunks. -/
def pySplitChar (s : String) (sep : Char) : List String :=
  (splitOnCharAux sep s.data []).map (fun l => (⟨l⟩ : String))

/-! ## Opening-hours parser for the CSV bulk path (`parse_opening_hours_csv`) -/

/-- One parsed entry, ready for insertion (dict produced by
`parse_opening_hours_csv`). -/
structure OHEntry : Type where
  day_of_week : Nat
  open_time : Option String
  close_time : Option String
  is_closed : Bool
deriving Repr, DecidableEq

/-- `open_t.strip() if len(open_t.strip().split(':')) == 3 else
f"{open_t.strip()}:00"` — pad a trimmed time string to `HH:MM:SS`. -/
def padSeconds (t : String) : String :=
  if (pySplitChar (pyStrip t) ':').length == 3 then pyStrip t
  else pyStrip t ++ ":00"

/-- Body of the per-day loop of `parse_opening_hours_csv` (main.py lines
82-112): empty/missing strings are skipped; `"closed"` (trimmed,
case-insensitive) yields a closed entry; a string splitting on `"-"` into
exactly two parts yields a time-range entry (the tuple unpacking
`open_t, close_t = time_str.split("-")` raises `ValueError` for any other
part count, which the source catches and skips). -/
def parse_day (day_of_week : Nat) : Option String → Option OHEntry
  | none => none
  | some time_str =>
    if pyStrip time_str == "" then none
    else
      let t := pyStrip time_str
      if pyLower t == "closed" then
        some { day_of_week := day_of_week, open_time := none, close_time := none,
               is_closed := true }
      else
        match pySplitChar t '-' with
        | [open_t, close_t] =>
          some { day_of_week := day_of_week, open_time := some (padSeconds open_t),
                 close_time := some (padSeconds close_t), is_closed := false }
        | _ => none

/-- `parse_opening_hours_csv` (main.py lines 62-114): the seven day columns in
source order Mon..Sun, with `DAY_MAP` = {Sun 0, Mon 1, .., Sat 6}. -/
def parse_opening_hours_csv (oh_monday oh_tuesday oh_wednesday oh_thursday
    oh_friday oh_saturday oh_sunday : Option String) : List OHEntry :=
  List.filterMap id
    [parse_day 1 oh_monday, parse_day 2 oh_tuesday, parse_day 3 oh_wednesday,
     parse_day 4 oh_thursday, parse_day 5 oh_friday, parse_day 6 oh_saturday,
     parse_day 0 oh_sunday]

/-! ## Read-side aggregation engine (`get_businesses`, main.py lines 315-504) -/

/-- Generic insertion into a list sorted by the boolean comparator `le`
(used to model SQL `ORDER BY`; only membership is relied on by the claims,
since SQL leaves the order of equal keys unspecified). -/
def insertLe {α : Type} (le : α → α → Bool) (a : α) : List α → List α
  | [] => [a]
  | b :: l => if le a b then a :: b :: l else b :: insertLe le a l

/-- Insertion sort with comparator `le` (models SQL `ORDER BY`). -/
def sortLe {α : Type} (le : α → α → Bool) : List α → List α
  | [] => []
  | a :: l => insertLe le a (sortLe le l)

/-- The per-business record built from one row of the main query and kept in
`businesses_dict` (main.py lines 348-361).  Latitude/longitude already carry
the Python truthiness conversion `float(x) if x else None` (so a coordinate
equal to 0 becomes `none`). -/
structure DictEntry : Type where
  id : Nat
  name : String
  is_verified : Bool
  category : Option String
  category_svg : Option String
  latitude : Option Rat
  longitude : Option Rat
  location_name : Option String
deriving Repr, DecidableEq

/-- `LEFT JOIN business_categories bc ON b.category_id = bc.id`. -/
def categoryRowFor (db : DB) (b : BusinessRow) : Option CategoryRow :=
  b.category_id.bind (fun cid => db.categories.find? (fun c => c.id == cid))

/-- `COALESCE(bc.svg, parent_bc.svg)` with
`LEFT JOIN business_categories parent_bc ON bc.parent_category_id = parent_bc.id`. -/
def categorySvgFor (db : DB) (b : BusinessRow) : Option String :=
  match categoryRowFor db b with
  | none => none
  | some c =>
    match c.svg with
    | some s => some s
    | none =>
      c.parent_category_id.bind
        (fun pid => (db.categories.find? (fun pc => pc.id == pid)).bind (fun pc => pc.svg))

/-- Rows of the main query (main.py lines 326-346): every business joined to
its public primary locations, rows with a NULL point filtered out by
`WHERE bl.location IS NOT NULL`, converted to the dict entry the Python loop
builds.  `row["name"] or ""` and `row["is_verified"] or False` are identities
here because both columns are modelled non-null. -/
def mainRows (db : DB) : List DictEntry :=
  db.businesses.flatMap (fun b =>
    (db.locations.filter
        (fun l => l.business_id == b.id && l.is_public && l.location_index == 1)).filterMap
      (fun l =>
        match l.location with
        | none => none
        | some p =>
          some { id := b.id
                 name := b.name
                 is_verified := b.is_verified
                 category := (categoryRowFor db b).map (fun c => c.category)
                 category_svg := categorySvgFor db b
                 latitude := if p.2 == 0 then none else some p.2
                 longitude := if p.1 == 0 then none else some p.1
                 location_name := l.location_name }))

/-- First-occurrence-wins keying by business id: `businesses_dict` is a Python
dict filled with `if business_id not in businesses_dict` over the query rows
(main.py lines 348-361). -/
def dedupById (seen : List Nat) : List DictEntry → List DictEntry
  | [] => []
  | e :: l =>
    if seen.contains e.id then dedupById seen l
    else e :: dedupById (e.id :: seen) l

/-- The main-query result as `businesses_dict` holds it: `SELECT DISTINCT`
(row dedup), `ORDER BY b.name, bl.location_index` (all kept rows have
`location_index = 1`, so the order is by name), then first-wins keying by id. -/
def businessesDict (db : DB) : List DictEntry :=
  dedupById [] (sortLe (fun (a b : DictEntry) => decide (a.name ≤ b.name)) (mainRows db).dedup)

/-- `{key, name, value, svg}` feature entry of the aggregated view; `value` is
`row["feature_score"] or True` (a zero score coerces to boolean `true`). -/
inductive FeatureValue : Type where
  | int (n : Int)
  | bool (b : Bool)
deriving Repr, DecidableEq

/-- One feature entry of the aggregated view (main.py lines 386-391). -/
structure FeatureView : Type where
  key : String
  name : String
  value : FeatureValue
  svg : String
deriving Repr, DecidableEq

/-- Approved feature proposals joined to their feature for business `i`
(main.py lines 364-391).  The inner join is modelled with `find?` on the
feature id (ids are unique); the SQL `ORDER BY` only affects presentation
order inside the group. -/
def featuresFor (db : DB) (i : Nat) : List FeatureView :=
  (sortLe (fun (a b : FeatureView) => decide (a.name ≤ b.name))
    ((db.featureProposals.filter
        (fun p => p.proposal_status == "approved" && p.business_id == i)).filterMap
      (fun p =>
        (db.features.find? (fun f => f.id == p.feature_id)).map
          (fun f =>
            FeatureView.mk ("feature_" ++ toString f.id) f.feature
              (if p.feature_score == 0 then FeatureValue.bool true
               else FeatureValue.int p.feature_score)
              (f.svg.getD "")))))

/-- The `socialLinks` object of the aggregated view (pydantic `SocialLinks`). -/
structure SocialLinksView : Type where
  website : Option String
  facebook : Option String
  instagram : Option String
  twitter : Option String
  tiktok : Option String
deriving Repr, DecidableEq

/-- View mapping of one `business_web_links` row (main.py lines 409-417):
`website ← primary_website_url`, `twitter ← x_url`. -/
def socialView (r : WebLinksRow) : SocialLinksView :=
  { website := r.primary_website_url
    facebook := r.facebook_url
    instagram := r.instagram_url
    twitter := r.x_url
    tiktok := r.tiktok_url }

/-- `any(v is not None for v in social_data.values())`. -/
def socialAnyNonNull (r : WebLinksRow) : Bool :=
  r.primary_website_url.isSome || r.facebook_url.isSome || r.instagram_url.isSome
    || r.x_url.isSome || r.tiktok_url.isSome

/-- `social_by_business[business_id]` after the fill loop (main.py lines
406-417): each row assignment overwrites, so the last table row for the
business wins. -/
def socialRowFor (db : DB) (i : Nat) : Option WebLinksRow :=
  (db.webLinks.filter (fun r => r.business_id == i)).getLast?

/-- The `socialLinks` field of the final view for business `i` (main.py lines
474-480): present only when a row exists and at least one URL is non-null. -/
def socialObj (db : DB) (i : Nat) : Option SocialLinksView :=
  match socialRowFor db i with
  | none => none
  | some r => if socialAnyNonNull r then some (socialView r) else none

/-- One opening-hours entry of the aggregated view (pydantic `OpeningHours`,
JSON keys `day`/`start`/`end`). -/
structure OpeningHoursView : Type where
  day : String
  start : String
  end_ : String
deriving Repr, DecidableEq

/-- `day_names` (main.py line 437). -/
def day_names : List String :=
  ["Sunday", "Monday", "Tuesday", "Wednesday", "Thursday", "Friday", "Saturday"]

/-- `day_names[d]` with Python list-index semantics: a negative index counts
from the end.  An index outside [-7,6] raises `IndexError` in the source
(surfaced as the endpoint's 500 handler); it is modelled as `""` here — no
operation of this file stores such a day and no claim reads this field. -/
def pyDayName (d : Int) : String :=
  if 0 ≤ d then (day_names.get? d.toNat).getD ""
  else (day_names.get? (7 - (-d).toNat)).getD ""

/-- Opening-hours query rows (main.py lines 420-434): hours joined to their
location restricted to `location_index = 1 AND is_public`, keyed by the
location's business id.  Location ids are unique, so the join is a `find?`. -/
def hoursJoinRows (db : DB) : List (Nat × OpeningHoursRow) :=
  db.openingHours.filterMap (fun r =>
    (db.locations.find?
        (fun l => l.id == r.location_id && l.location_index == 1 && l.is_public)).map
      (fun l => (l.business_id, r)))

/-- `hours_by_business[i]` (main.py lines 439-449): rows of business `i` in
day order, `is_closed` rows dropped, `str(t) if t else default` fallbacks
(a non-null time value is always truthy; NULL falls back). -/
def hoursFor (db : DB) (i : Nat) : List OpeningHoursView :=
  (sortLe (fun (a b : Nat × OpeningHoursRow) => decide (a.2.day_of_week ≤ b.2.day_of_week))
      ((hoursJoinRows db).filter (fun p => p.1 == i))).filterMap
    (fun p =>
      if p.2.is_closed then none
      else some { day := pyDayName p.2.day_of_week
                  start := p.2.open_time.getD "9:00"
                  end_ := p.2.close_time.getD "17:00" })

/-- `logos_by_business` (main.py lines 452-466): `DISTINCT ON (business_id)`
over logo rows (`image_type = 'logo' AND image_index = 0`) keeps the first
row per business. -/
def logoFor (db : DB) (i : Nat) : Option String :=
  ((db.images.filter (fun r => r.image_type == "logo" && r.image_index == 0)).find?
      (fun r => r.business_id == i)).map (fun r => r.url)

/-- The aggregated business record (pydantic `Business`). -/
structure BusinessView : Type where
  id : Nat
  name : String
  description : Option String
  latitude : Rat
  longitude : Rat
  category : Option String
  categorySvg : Option String
  isVerified : Bool
  logo : Option String
  features : List FeatureView
  socialLinks : Option SocialLinksView
  openingHours : List OpeningHoursView
deriving Repr, DecidableEq

/-- Body of the final merge loop (main.py lines 470-496): a dict entry with a
missing latitude or longitude is skipped, otherwise the five per-business
maps are merged into one `Business` record (`description` is the location
name, as in the source). -/
def mkView (db : DB) (e : DictEntry) : Option BusinessView :=
  match e.latitude, e.longitude with
  | some lat, some lng =>
    some { id := e.id
           name := e.name
           description := e.location_name
           latitude := lat
           longitude := lng
           category := e.category
           categorySvg := e.category_svg
           isVerified := e.is_verified
           logo := logoFor db e.id
           features := featuresFor db e.id
           socialLinks := socialObj db e.id
           openingHours := hoursFor db e.id }
  | _, _ => none

/-- `GET /businesses` (main.py lines 315-504). -/
def get_businesses (db : DB) : List BusinessView :=
  (businessesDict db).filterMap (mkView db)

/-! ## Onboarding step engine (write side)

Each operation returns `Except ApiError (DB × resp)`.  `.error e` models a
raise after `conn.rollback()`: the committed state the caller observes is the
original `DB` (made explicit by the `*Committed` helpers below).  `.ok` models
`conn.commit()`. -/

/-- Request body of `POST /businesses/{id}/location`. -/
structure BusinessLocationRequest : Type where
  latitude : Rat
  longitude : Rat
  location_name : Option String
deriving Repr, DecidableEq

/-- `add_business_location` (main.py lines 633-713): verify the business
exists (404), reject when an index-1 location already exists (400, the spec's
`Conflict`), else insert the primary public location built from
`ST_MakePoint(longitude, latitude)` and commit. -/
def add_business_location (db : DB) (business_id : Nat)
    (request : BusinessLocationRequest) : Except ApiError (DB × Nat) :=
  match db.businesses.find? (fun b => b.id == business_id) with
  | none =>
    .error (.notFound ("Business with id " ++ toString business_id ++ " not found"))
  | some _ =>
    match db.locations.find?
        (fun l => l.business_id == business_id && l.location_index == 1) with
    | some _ => .error (.conflict "Primary location already exists for this business")
    | none =>
      let row : LocationRow :=
        { id := db.nextId
          business_id := business_id
          location := some (request.longitude, request.latitude)
          location_name := request.location_name
          location_index := 1
          is_public := true }
      .ok ({ db with locations := db.locations ++ [row], nextId := db.nextId + 1 },
           db.nextId)

/-- The committed state after `POST /businesses/{id}/location` returns or
raises (rollback on error). -/
def addLocationCommitted (db : DB) (business_id : Nat)
    (request : BusinessLocationRequest) : DB :=
  match add_business_location db business_id request with
  | .ok (db2, _) => db2
  | .error _ => db

/-- One entry of the `POST /businesses/{id}/opening-hours` request body
(pydantic `OpeningHourRequest`). -/
structure OpeningHourRequest : Type where
  day_of_week : Int
  open_time : Option String
  close_time : Option String
  is_closed : Bool
deriving Repr, DecidableEq

/-- `hour.open_time if len(hour.open_time.split(':')) == 3 else
f"{hour.open_time}:00"` (no trimming on this path, unlike the CSV parser). -/
def padSecondsReq (t : String) : String :=
  if (pySplitChar t ':').length == 3 then t else t ++ ":00"

/-- The `open_time`/`close_time` value bound for the insert (main.py lines
769-778): stays `None` when the entry is closed or when the field is falsy
(`None` or `""`), else is padded to `HH:MM:SS`. -/
def normTimeField (is_closed : Bool) (t : Option String) : Option String :=
  if is_closed then none
  else
    match t with
    | none => none
    | some s => if s == "" then none else some (padSecondsReq s)

/-- The row `add_business_opening_hours` inserts for one validated entry. -/
def mkHourRow (location_id rowId : Nat) (h : OpeningHourRequest) : OpeningHoursRow :=
  { id := rowId
    location_id := location_id
    day_of_week := h.day_of_week
    open_time := normTimeField h.is_closed h.open_time
    close_time := normTimeField h.is_closed h.close_time
    is_closed := h.is_closed }

/-- The insert loop of `add_business_opening_hours` (main.py lines 759-796):
for each entry, in order, validate `day_of_week ∈ [0,6]` (raising 400 — the
spec's `Validation` — at the first violation) and insert the normalised row.
Returns the updated working state and the `inserted_hours` echo rows. -/
def insertHoursLoop (location_id : Nat) :
    DB → List OpeningHourRequest → Except ApiError (DB × List OpeningHoursRow)
  | db, [] => .ok (db, [])
  | db, h :: rest =>
    if h.day_of_week < 0 ∨ 6 < h.day_of_week then
      .error (.validation ("Invalid day_of_week: " ++ toString h.day_of_week
        ++ ". Must be 0-6 (0=Sun, 6=Sat)"))
    else
      let row := mkHourRow location_id db.nextId h
      match insertHoursLoop location_id
          { db with openingHours := db.openingHours ++ [row], nextId := db.nextId + 1 }
          rest with
      | .error e => .error e
      | .ok (db2, ins) => .ok (db2, row :: ins)

/-- `add_business_opening_hours` (main.py lines 716-825): verify the business
exists (404) and its primary location exists (400), delete every stored hour
of that location, then run the validated insert loop; any raise rolls the
whole transaction back. -/
def add_business_opening_hours (db : DB) (business_id : Nat)
    (opening_hours : List OpeningHourRequest) :
    Except ApiError (DB × List OpeningHoursRow) :=
  match db.businesses.find? (fun b => b.id == business_id) with
  | none =>
    .error (.notFound ("Business with id " ++ toString business_id ++ " not found"))
  | some _ =>
    match db.locations.find?
        (fun l => l.business_id == business_id && l.location_index == 1) with
    | none =>
      .error (.validation "Primary location must be created before adding opening hours")
    | some location =>
      insertHoursLoop location.id
        { db with
            openingHours := db.openingHours.filter
              (fun r => !(r.location_id == location.id)) }
        opening_hours

/-- The committed state after `POST /businesses/{id}/opening-hours` returns or
raises (rollback on error). -/
def setHoursCommitted (db : DB) (business_id : Nat)
    (opening_hours : List OpeningHourRequest) : DB :=
  match add_business_opening_hours db business_id opening_hours with
  | .ok (db2, _) => db2
  | .error _ => db

/-- Request body of `POST /businesses/{id}/social-links` (pydantic
`SocialLinksRequest`). -/
structure SocialLinksRequest : Type where
  primary_website_url : Option String
  facebook_url : Option String
  instagram_url : Option String
  x_url : Option String
  tiktok_url : Option String
deriving Repr, DecidableEq

/-- `add_business_social_links` (main.py lines 828-916): verify the business
exists (404); if a `business_web_links` row exists for it, `UPDATE` every such
row to the request's five values, else `INSERT` a new row; commit. -/
def add_business_social_links (db : DB) (business_id : Nat)
    (request : SocialLinksRequest) : Except ApiError (DB × Nat) :=
  match db.businesses.find? (fun b => b.id == business_id) with
  | none =>
    .error (.notFound ("Business with id " ++ toString business_id ++ " not found"))
  | some _ =>
    match db.webLinks.find? (fun r => r.business_id == business_id) with
    | some existing =>
      .ok ({ db with
               webLinks := db.webLinks.map (fun r =>
                 if r.business_id == business_id then
                   { r with
                       primary_website_url := request.primary_website_url
                       facebook_url := request.facebook_url
                       instagram_url := request.instagram_url
                       x_url := request.x_url
                       tiktok_url := request.tiktok_url }
                 else r) },
           existing.id)
    | none =>
      let row : WebLinksRow :=
        { id := db.nextId
          business_id := business_id
          primary_website_url := request.primary_website_url
          facebook_url := request.facebook_url
          instagram_url := request.instagram_url
          x_url := request.x_url
          tiktok_url := request.tiktok_url }
      .ok ({ db with webLinks := db.webLinks ++ [row], nextId := db.nextId + 1 },
           db.nextId)

/-- The committed state after `POST /businesses/{id}/social-links` returns or
raises. -/
def socialCommitted (db : DB) (business_id : Nat) (request : SocialLinksRequest) : DB :=
  match add_business_social_links db business_id request with
  | .ok (db2, _) => db2
  | .error _ => db

/-! ## Bulk-import orchestrator (`bulk_import_business`, main.py 1057-1257) -/

/-- Request body of `POST /businesses/bulk-import` (pydantic
`BulkBusinessImportRequest`). -/
structure BulkBusinessImportRequest : Type where
  name : String
  category : String
  address : String
  location_name : Option String
  website : Option String
  x_url : Option String
  instagram_url : Option String
  facebook_url : Option String
  tiktok_url : Option String
  logo_url : Option String
  oh_monday : Option String
  oh_tuesday : Option String
  oh_wednesday : Option String
  oh_thursday : Option String
  oh_friday : Option String
  oh_saturday : Option String
  oh_sunday : Option String
  features : Option (List String)
deriving Repr, DecidableEq

/-- Success body of `POST /businesses/bulk-import`. -/
structure BulkImportResult : Type where
  business_id : Nat
  location_id : Nat
  category_id : Nat
  latitude : Rat
  longitude : Rat
  location_name : String
  opening_hours_count : Nat
deriving Repr, DecidableEq

/-- Step 5 of the bulk import (main.py lines 1143-1162): insert each parsed
opening-hours entry for the new location. -/
def insertParsedHours (location_id : Nat) (db : DB) (ohs : List OHEntry) : DB :=
  ohs.foldl
    (fun d h =>
      { d with
          openingHours := d.openingHours ++
            [{ id := d.nextId
               location_id := location_id
               day_of_week := (h.day_of_week : Int)
               open_time := h.open_time
               close_time := h.close_time
               is_closed := h.is_closed }]
          nextId := d.nextId + 1 })
    db

/-- Step 8 body (main.py lines 1200-1222): skip blank names, resolve the
trimmed name against `business_features`, silently skip unmatched names, and
insert a `pending` proposal with score 0 for each match. -/
def insertFeatureByName (business_id : Nat) (db : DB) (feature_name : String) : DB :=
  if pyStrip feature_name == "" then db
  else
    match db.features.find? (fun f => f.feature == pyStrip feature_name) with
    | none => db
    | some f =>
      { db with
          featureProposals := db.featureProposals ++
            [{ id := db.nextId
               business_id := business_id
               feature_id := f.id
               feature_score := 0
               proposal_status := "pending" }]
          nextId := db.nextId + 1 }

/-- `bulk_import_business` (main.py lines 1057-1257), one all-or-nothing
transaction.  `geo` is the geocoder oracle (`none` = the `ValueError` path of
`geocode_address`, surfaced as 400); `fault = true` injects a storage-layer
exception during the write phase (the generic `except Exception` handler:
rollback, then 500).  Order of steps as in the source: resolve category
(404 if absent), geocode (400 on failure), then inside the open transaction
insert business, location, parsed opening hours, web links (only when some
URL is truthy), logo (only when truthy), and name-resolved feature
proposals; commit at the end.  Every error path rolls back, which the
`Except` result models: no `.error` outcome carries a state. -/
def bulk_import_business (db : DB) (request : BulkBusinessImportRequest)
    (geo : Option (Rat × Rat × String)) (fault : Bool) :
    Except ApiError (DB × BulkImportResult) :=
  match db.categories.find? (fun c => c.category == request.category) with
  | none =>
    .error (.notFound ("Category '" ++ request.category ++ "' not found"))
  | some category =>
    match geo with
    | none =>
      .error (.validation ("Could not geocode address: " ++ request.address))
    | some (lng, lat, place_name) =>
      if fault then .error (.unexpected "Database error")
      else
        let location_name :=
          match request.location_name with
          | some s => if s == "" then place_name else s
          | none => place_name
        let business_id := db.nextId
        let db1 : DB :=
          { db with
              businesses := db.businesses ++
                [{ id := business_id
                   name := request.name
                   category_id := some category.id
                   is_verified := false }]
              nextId := db.nextId + 1 }
        let location_id := db1.nextId
        let db2 : DB :=
          { db1 with
              locations := db1.locations ++
                [{ id := location_id
                   business_id := business_id
                   location := some (lng, lat)
                   location_name := some location_name
                   location_index := 1
                   is_public := true }]
              nextId := db1.nextId + 1 }
        let opening_hours := parse_opening_hours_csv request.oh_monday
          request.oh_tuesday request.oh_wednesday request.oh_thursday
          request.oh_friday request.oh_saturday request.oh_sunday
        let db3 := insertParsedHours location_id db2 opening_hours
        let db4 : DB :=
          if pyTruthy request.website || pyTruthy request.x_url
              || pyTruthy request.instagram_url || pyTruthy request.facebook_url
              || pyTruthy request.tiktok_url then
            { db3 with
                webLinks := db3.webLinks ++
                  [{ id := db3.nextId
                     business_id := business_id
                     primary_website_url := request.website
                     facebook_url := request.facebook_url
                     instagram_url := request.instagram_url
                     x_url := request.x_url
                     tiktok_url := request.tiktok_url }]
                nextId := db3.nextId + 1 }
          else db3
        let db5 : DB :=
          match request.logo_url with
          | some u =>
            if u == "" then db4
            else
              { db4 with
                  images := db4.images ++
                    [{ id := db4.nextId
                       business_id := business_id
                       image_type := "logo"
                       image_index := 0
                       url := u }]
                  nextId := db4.nextId + 1 }
          | none => db4
        let db6 := (request.features.getD []).foldl (insertFeatureByName business_id) db5
        .ok (db6,
          { business_id := business_id
            location_id := location_id
            category_id := category.id
            latitude := lat
            longitude := lng
            location_name := location_name
            opening_hours_count := opening_hours.length })

/-- The committed state after `POST /businesses/bulk-import` returns or raises
(any raise rolls the whole transaction back). -/
def bulkCommitted (db : DB) (request : BulkBusinessImportRequest)
    (geo : Option (Rat × Rat × String)) (fault : Bool) : DB :=
  match bulk_import_business db request geo fault with
  | .ok (db2, _) => db2
  | .error _ => db

/-! ## Concrete sample state used by witnesses and counterexamples -/

/-- A small concrete state: one category, two businesses (id 1 with a public
primary location and a web-links row; id 2 with no location), one catalog
feature. -/
def sampleDB : DB :=
  { businesses := [{ id := 1, name := "Joes", category_id := some 1, is_verified := false },
                   { id := 2, name := "Two", category_id := some 1, is_verified := false }]
    categories := [{ id := 1, category := "Cafe", description := none, svg := none,
                     parent_category_id := none }]
    locations := [{ id := 10, business_id := 1, location := some (2, 51),
                    location_name := some "Loc1", location_index := 1, is_public := true }]
    openingHours := []
    webLinks := [{ id := 20, business_id := 1, primary_website_url := some "http://w",
                   facebook_url := none, instagram_url := none, x_url := none,
                   tiktok_url := none }]
    images := []
    features := [{ id := 5, feature := "Wifi", description := none, svg := none }]
    featureProposals := []
    nextId := 100 }

/-- The aggregated view of business 1 in `sampleDB` (the sole element of
`get_businesses sampleDB`). -/
def sampleView : BusinessView :=
  { id := 1
    name := "Joes"
    description := some "Loc1"
    latitude := 51
    longitude := 2
    category := some "Cafe"
    categorySvg := none
    isVerified := false
    logo := none
    features := []
    socialLinks := some { website := some "http://w", facebook := none,
                          instagram := none, twitter := none, tiktok := none }
    openingHours := [] }

/-! ## List helper lemmas (membership through sort / dedup / keyed merge) -/

theorem mem_insertLe {α : Type} (le : α → α → Bool) (a x : α) :
    ∀ l : List α, x ∈ insertLe le a l → x = a ∨ x ∈ l := by
  intro l
  induction l with
  | nil =>
    intro h
    simp only [insertLe, List.mem_singleton] at h
    exact Or.inl h
  | cons b t ih =>
    intro h
    simp only [insertLe] at h
    by_cases hc : le a b = true
    · rw [if_pos hc] at h
      simp only [List.mem_cons] at h ⊢
      tauto
    · rw [if_neg hc] at h
      simp only [List.mem_cons] at h ⊢
      rcases h with h | h
      · tauto
      · rcases ih h with h | h <;> tauto

theorem mem_sortLe {α : Type} (le : α → α → Bool) (x : α) :
    ∀ l : List α, x ∈ sortLe le l → x ∈ l := by
  intro l
  induction l with
  | nil => intro h; simp [sortLe] at h
  | cons a t ih =>
    intro h
    simp only [sortLe] at h
    rcases mem_insertLe le a x _ h with h | h
    · simp [h]
    · exact List.mem_cons_of_mem _ (ih h)

theorem mem_dedupById (x : DictEntry) :
    ∀ (seen : List Nat) (l : List DictEntry), x ∈ dedupById seen l → x ∈ l := by
  intro seen l
  induction l generalizing seen with
  | nil => intro h; simp [dedupById] at h
  | cons e t ih =>
    intro h
    simp only [dedupById] at h
    by_cases hc : seen.contains e.id = true
    · rw [if_pos hc] at h
      exact List.mem_cons_of_mem _ (ih _ h)
    · rw [if_neg hc] at h
      simp only [List.mem_cons] at h ⊢
      rcases h with h | h
      · tauto
      · exact Or.inr (ih _ h)

theorem mem_businessesDict (db : DB) (e : DictEntry) (h : e ∈ businessesDict db) :
    e ∈ mainRows db := by
  have h1 := mem_dedupById e [] _ h
  have h2 := mem_sortLe _ e _ h1
  exact List.mem_dedup.mp h2

/-- Every row of the main query comes from a business joined to one of its
public primary locations with a non-null point, and carries that business's
id. -/
theorem mainRows_spec (db : DB) (e : DictEntry) (h : e ∈ mainRows db) :
    ∃ b ∈ db.businesses, ∃ l ∈ db.locations,
      l.business_id = b.id ∧ l.is_public = true ∧ l.location_index = 1 ∧
        l.location.isSome = true ∧ e.id = b.id := by
  simp only [mainRows, List.mem_flatMap] at h
  obtain ⟨b, hb, h⟩ := h
  simp only [List.mem_filterMap, List.mem_filter] at h
  obtain ⟨l, ⟨hl, hcond⟩, hsome⟩ := h
  simp only [Bool.and_eq_true, beq_iff_eq] at hcond
  obtain ⟨⟨hbid, hpub⟩, hidx⟩ := hcond
  cases hloc : l.location with
  | none => rw [hloc] at hsome; cases hsome
  | some p =>
    rw [hloc] at hsome
    have he : e.id = b.id := by
      have := Option.some.inj hsome
      rw [← this]
    exact ⟨b, hb, l, hl, hbid, hpub, hidx, by simp [hloc], he⟩

theorem get_businesses_mem (db : DB) (v : BusinessView) (h : v ∈ get_businesses db) :
    ∃ e ∈ businessesDict db, mkView db e = some v := by
  simpa [get_businesses, List.mem_filterMap] using h

/-- A produced view record carries the dict entry's id and the per-id social
object. -/
theorem mkView_id_social (db : DB) (e : DictEntry) (v : BusinessView)
    (h : mkView db e = some v) :
    v.id = e.id ∧ v.socialLinks = socialObj db e.id := by
  unfold mkView at h
  cases hlat : e.latitude with
  | none => rw [hlat] at h; cases h
  | some lat =>
    cases hlng : e.longitude with
    | none => rw [hlat, hlng] at h; cases h
    | some lng =>
      rw [hlat, hlng] at h
      have := Option.some.inj h
      rw [← this]
      exact ⟨rfl, rfl⟩

/-- C6: `GetBusinesses` returns only businesses that have a primary public
location (`location_index = 1`, `is_public = true`) with a non-null point:
any view record's id is the id of a business owning such a location, so the
result set is a subset of the businesses with a non-null primary location,
and businesses lacking one are (silently) absent. -/
theorem getBusinesses_subset_primary (db : DB) (v : BusinessView)
    (h : v ∈ get_businesses db) :
    ∃ l ∈ db.locations, l.business_id = v.id ∧ l.location_index = 1 ∧
      l.is_public = true ∧ l.location ≠ none := by
  obtain ⟨e, he, hv⟩ := get_businesses_mem db v h
  obtain ⟨b, _, l, hl, h1, h2, h3, h4, h5⟩ := mainRows_spec db e (mem_businessesDict db e he)
  obtain ⟨hid, _⟩ := mkView_id_social db e v hv
  refine ⟨l, hl, ?_, h3, h2, ?_⟩
  · rw [hid, h5, h1]
  · intro hn
    rw [hn] at h4
    cases h4

/-- Witness for C6 at the concrete sample state: `sampleView` is in
`get_businesses sampleDB`, and the theorem produces its primary location. -/
theorem getBusinesses_subset_primary_witness :
    ∃ l ∈ sampleDB.locations, l.business_id = sampleView.id ∧ l.location_index = 1 ∧
      l.is_public = true ∧ l.location ≠ none :=
  getBusinesses_subset_primary sampleDB sampleView (by decide)

/-! ## Social links: presence rule and upsert round-trip -/

/-- `any([...])` over the five request URLs as stored values are non-null. -/
def socialAnyNonNullReq (L : SocialLinksRequest) : Bool :=
  L.primary_website_url.isSome || L.facebook_url.isSome || L.instagram_url.isSome
    || L.x_url.isSome || L.tiktok_url.isSome

/-- The view object built from a request's five values (`website ←
primary_website_url`, `twitter ← x_url`). -/
def reqSocialView (L : SocialLinksRequest) : SocialLinksView :=
  { website := L.primary_website_url
    facebook := L.facebook_url
    instagram := L.instagram_url
    twitter := L.x_url
    tiktok := L.tiktok_url }

theorem mem_of_getLast? {α : Type} :
    ∀ {l : List α} {a : α}, l.getLast? = some a → a ∈ l := by
  intro l
  induction l with
  | nil => intro a h; cases h
  | cons x t ih =>
    intro a h
    cases t with
    | nil =>
      have hx : x = a := by simpa using h
      simp [hx]
    | cons y u =>
      rw [List.getLast?_cons_cons] at h
      exact List.mem_cons_of_mem _ (ih h)

/-- A view record's `socialLinks` field is exactly the per-id social object of
the state it was aggregated from. -/
theorem view_socialLinks (db : DB) (v : BusinessView) (h : v ∈ get_businesses db) :
    v.socialLinks = socialObj db v.id := by
  obtain ⟨e, he, hv⟩ := get_businesses_mem db v h
  obtain ⟨hid, hs⟩ := mkView_id_social db e v hv
  rw [hs, hid]

/-- With at most one `business_web_links` row per business, the social object
for `i` is present iff a stored row for `i` has some non-null URL. -/
theorem socialObj_isSome_iff (db : DB) (i : Nat)
    (huniq : ∀ r1 ∈ db.webLinks, ∀ r2 ∈ db.webLinks,
      r1.business_id = i → r2.business_id = i → r1 = r2) :
    (socialObj db i).isSome = true ↔
      ∃ r ∈ db.webLinks, r.business_id = i ∧ socialAnyNonNull r = true := by
  unfold socialObj socialRowFor
  constructor
  · intro h
    cases hlast : (db.webLinks.filter (fun r => r.business_id == i)).getLast? with
    | none => rw [hlast] at h; simp at h
    | some r =>
      rw [hlast] at h
      have hr := mem_of_getLast? hlast
      rw [List.mem_filter] at hr
      by_cases hnn : socialAnyNonNull r = true
      · exact ⟨r, hr.1, by simpa using hr.2, hnn⟩
      · simp [hnn] at h
  · rintro ⟨r, hmem, hbid, hnn⟩
    have hrf : r ∈ db.webLinks.filter (fun r => r.business_id == i) :=
      List.mem_filter.mpr ⟨hmem, by simp [hbid]⟩
    cases hlast : (db.webLinks.filter (fun r => r.business_id == i)).getLast? with
    | none =>
      rw [List.getLast?_eq_none_iff] at hlast
      rw [hlast] at hrf
      cases hrf
    | some r' =>
      have hr' := mem_of_getLast? hlast
      rw [List.mem_filter] at hr'
      have heq : r' = r := huniq r' hr'.1 r hmem (by simpa using hr'.2) hbid
      rw [heq]
      simp [hnn]

/-- Filtering the `bid` rows after the `UPDATE ... WHERE business_id = bid`
map is the same as updating the filtered rows (the update preserves
`business_id`). -/
theorem filter_map_updWebLinks (bid : Nat) (request : SocialLinksRequest) :
    ∀ l : List WebLinksRow,
      (l.map (fun r =>
          if r.business_id == bid then
            { r with
                primary_website_url := request.primary_website_url
                facebook_url := request.facebook_url
                instagram_url := request.instagram_url
                x_url := request.x_url
                tiktok_url := request.tiktok_url }
          else r)).filter (fun r => r.business_id == bid) =
      (l.filter (fun r => r.business_id == bid)).map (fun r =>
          { r with
              primary_website_url := request.primary_website_url
              facebook_url := request.facebook_url
              instagram_url := request.instagram_url
              x_url := request.x_url
              tiktok_url := request.tiktok_url }) := by
  intro l
  induction l with
  | nil => rfl
  | cons r t ih =>
    by_cases hc : (r.business_id == bid) = true
    · have hc2 : (({ r with
          primary_website_url := request.primary_website_url
          facebook_url := request.facebook_url
          instagram_url := request.instagram_url
          x_url := request.x_url
          tiktok_url := request.tiktok_url } : WebLinksRow).business_id == bid) = true := hc
      rw [List.map_cons, if_pos hc, List.filter_cons, if_pos hc2, List.filter_cons,
        if_pos hc, List.map_cons, ih]
    · rw [List.map_cons, if_neg hc, List.filter_cons, if_neg hc, List.filter_cons,
        if_neg hc, ih]

/-- After an upsert for an existing business `bid`, the social object of `bid`
holds exactly the request's five values, present iff some value is non-null
(round-trip at the storage level). -/
theorem socialObj_after_upsert (db : DB) (bid : Nat) (request : SocialLinksRequest)
    (hb : (db.businesses.find? (fun b => b.id == bid)).isSome = true) :
    socialObj (socialCommitted db bid request) bid =
      (if socialAnyNonNullReq request = true then some (reqSocialView request)
       else none) := by
  cases hbf : db.businesses.find? (fun b => b.id == bid) with
  | none => rw [hbf] at hb; cases hb
  | some b =>
    cases hw : db.webLinks.find? (fun r => r.business_id == bid) with
    | some existing =>
      have hcomm : socialCommitted db bid request =
          { db with
              webLinks := db.webLinks.map (fun r =>
                if r.business_id == bid then
                  { r with
                      primary_website_url := request.primary_website_url
                      facebook_url := request.facebook_url
                      instagram_url := request.instagram_url
                      x_url := request.x_url
                      tiktok_url := request.tiktok_url }
                else r) } := by
        simp only [socialCommitted, add_business_social_links, hbf, hw]
      rw [hcomm]
      unfold socialObj socialRowFor
      dsimp only
      rw [filter_map_updWebLinks bid request db.webLinks, List.getLast?_map]
      have hexb : (existing.business_id == bid) = true :=
        @List.find?_some _ (fun r => r.business_id == bid) existing db.webLinks hw
      have hex : existing ∈ db.webLinks.filter (fun r => r.business_id == bid) :=
        List.mem_filter.mpr ⟨List.mem_of_find?_eq_some hw, hexb⟩
      cases hlast : (db.webLinks.filter (fun r => r.business_id == bid)).getLast? with
      | none =>
        rw [List.getLast?_eq_none_iff] at hlast
        rw [hlast] at hex
        cases hex
      | some r0 =>
        by_cases hnn : socialAnyNonNullReq request = true
        · have h1 : socialAnyNonNull { r0 with
              primary_website_url := request.primary_website_url
              facebook_url := request.facebook_url
              instagram_url := request.instagram_url
              x_url := request.x_url
              tiktok_url := request.tiktok_url } = true := by
            simpa [socialAnyNonNull, socialAnyNonNullReq] using hnn
          simp [h1, hnn, socialView, reqSocialView]
        · have h1 : socialAnyNonNull { r0 with
              primary_website_url := request.primary_website_url
              facebook_url := request.facebook_url
              instagram_url := request.instagram_url
              x_url := request.x_url
              tiktok_url := request.tiktok_url } = false := by
            simp only [socialAnyNonNullReq] at hnn
            simp [socialAnyNonNull]
            simpa using hnn
          simp [h1, hnn]
    | none =>
      have hcomm : socialCommitted db bid request =
          { db with
              webLinks := db.webLinks ++
                [{ id := db.nextId
                   business_id := bid
                   primary_website_url := request.primary_website_url
                   facebook_url := request.facebook_url
                   instagram_url := request.instagram_url
                   x_url := request.x_url
                   tiktok_url := request.tiktok_url }]
              nextId := db.nextId + 1 } := by
        simp only [socialCommitted, add_business_social_links, hbf, hw]
      rw [hcomm]
      unfold socialObj socialRowFor
      dsimp only
      have hnil : db.webLinks.filter (fun r => r.business_id == bid) = [] := by
        apply List.filter_eq_nil_iff.mpr
        intro r hr
        have := List.find?_eq_none.mp hw r hr
        simpa using this
      rw [List.filter_append, hnil, List.nil_append]
      by_cases hnn : socialAnyNonNullReq request = true
      · simp [socialAnyNonNull, socialAnyNonNullReq, socialView, reqSocialView] at hnn ⊢
      · simp [socialAnyNonNull, socialAnyNonNullReq, socialView, reqSocialView] at hnn ⊢

/-- C7: a business's `socialLinks` field in the `GetBusinesses` view is
present iff at least one stored social URL for it is non-null (an all-null
row is omitted, not returned as an all-null object), given the §3 invariant
of at most one `business_web_links` row per business; and upserting `L` for
an existing business then reading it back through `GetBusinesses` yields
exactly `L`'s non-null fields (null fields stay null, `website ←
primary_website_url`, `twitter ← x_url`), present iff some field of `L` is
non-null. -/
theorem socialLinks_presence_iff_and_roundtrip :
    (∀ db v, v ∈ get_businesses db →
      (∀ r1 ∈ db.webLinks, ∀ r2 ∈ db.webLinks,
        r1.business_id = v.id → r2.business_id = v.id → r1 = r2) →
      (v.socialLinks.isSome = true ↔
        ∃ r ∈ db.webLinks, r.business_id = v.id ∧ socialAnyNonNull r = true)) ∧
    (∀ db bid L v, (db.businesses.find? (fun b => b.id == bid)).isSome = true →
      v ∈ get_businesses (socialCommitted db bid L) → v.id = bid →
      v.socialLinks =
        (if socialAnyNonNullReq L = true then some (reqSocialView L) else none)) := by
  constructor
  · intro db v hv huniq
    rw [view_socialLinks db v hv]
    exact socialObj_isSome_iff db v.id huniq
  · intro db bid L v hb hv hid
    rw [view_socialLinks _ v hv, hid]
    exact socialObj_after_upsert db bid L hb

/-- The social-links request used by the C7 witness. -/
def sampleL : SocialLinksRequest :=
  { primary_website_url := none, facebook_url := some "fb", instagram_url := none,
    x_url := some "x", tiktok_url := none }

/-- Business 1's view after upserting `sampleL`. -/
def sampleView2 : BusinessView :=
  { sampleView with
      socialLinks := some { website := none, facebook := some "fb",
                            instagram := none, twitter := some "x", tiktok := none } }

/-- Witness for C7 at the concrete sample state: both conjuncts applied at
`sampleDB` (business 1 appears in the view; the upsert round-trip yields
exactly `sampleL`'s non-null fields). -/
theorem socialLinks_presence_iff_and_roundtrip_witness :
    (sampleView.socialLinks.isSome = true ↔
      ∃ r ∈ sampleDB.webLinks, r.business_id = sampleView.id ∧
        socialAnyNonNull r = true) ∧
    sampleView2.socialLinks =
      (if socialAnyNonNullReq sampleL = true then some (reqSocialView sampleL)
       else none) :=
  ⟨socialLinks_presence_iff_and_roundtrip.1 sampleDB sampleView (by decide) (by decide),
   socialLinks_presence_iff_and_roundtrip.2 sampleDB 1 sampleL sampleView2 (by decide)
     (by decide) rfl⟩

/-! ## AddLocation: NotFound / Conflict behaviour -/

/-- The primary-location row `add_business_location` inserts. -/
def newPrimaryLocation (db : DB) (business_id : Nat)
    (request : BusinessLocationRequest) : LocationRow :=
  { id := db.nextId
    business_id := business_id
    location := some (request.longitude, request.latitude)
    location_name := request.location_name
    location_index := 1
    is_public := true }

/-- C8: `AddLocation` fails with `NotFound` (404) when the business does not
exist and with `Conflict` (400, "Primary location already exists...") when an
index-1 location already exists, leaving the state unchanged in both cases;
and for an existing business with no primary location, a first call followed
by a second has the second fail with `Conflict` while exactly one new
location row for that business exists (no duplicate). -/
theorem addLocation_notFound_conflict_noDup :
    (∀ db bid req, db.businesses.find? (fun b => b.id == bid) = none →
      add_business_location db bid req =
        .error (.notFound ("Business with id " ++ toString bid ++ " not found")) ∧
      addLocationCommitted db bid req = db) ∧
    (∀ db bid req l,
      (db.businesses.find? (fun b => b.id == bid)).isSome = true →
      db.locations.find? (fun x => x.business_id == bid && x.location_index == 1) =
        some l →
      add_business_location db bid req =
        .error (.conflict "Primary location already exists for this business") ∧
      addLocationCommitted db bid req = db) ∧
    (∀ db bid req1 req2,
      (db.businesses.find? (fun b => b.id == bid)).isSome = true →
      db.locations.find? (fun x => x.business_id == bid && x.location_index == 1) =
        none →
      add_business_location (addLocationCommitted db bid req1) bid req2 =
        .error (.conflict "Primary location already exists for this business") ∧
      ((addLocationCommitted (addLocationCommitted db bid req1) bid req2).locations.filter
          (fun x => x.business_id == bid)).length =
        (db.locations.filter (fun x => x.business_id == bid)).length + 1) := by
  refine ⟨?_, ?_, ?_⟩
  · intro db bid req hb
    constructor
    · simp only [add_business_location, hb]
    · simp only [addLocationCommitted, add_business_location, hb]
  · intro db bid req l hb hl
    cases hbf : db.businesses.find? (fun b => b.id == bid) with
    | none => rw [hbf] at hb; cases hb
    | some b =>
      constructor
      · simp only [add_business_location, hbf, hl]
      · simp only [addLocationCommitted, add_business_location, hbf, hl]
  · intro db bid req1 req2 hb hn
    cases hbf : db.businesses.find? (fun b => b.id == bid) with
    | none => rw [hbf] at hb; cases hb
    | some b =>
      have hcomm1 : addLocationCommitted db bid req1 =
          { db with
              locations := db.locations ++ [newPrimaryLocation db bid req1]
              nextId := db.nextId + 1 } := by
        simp only [addLocationCommitted, add_business_location, hbf, hn,
          newPrimaryLocation]
      have hpnew : ((newPrimaryLocation db bid req1).business_id == bid
          && (newPrimaryLocation db bid req1).location_index == 1) = true := by
        simp [newPrimaryLocation]
      have hfind1 : (addLocationCommitted db bid req1).locations.find?
          (fun x => x.business_id == bid && x.location_index == 1) =
            some (newPrimaryLocation db bid req1) := by
        rw [hcomm1]
        dsimp only
        rw [List.find?_append, hn]
        simp only [Option.none_or]
        rw [List.find?_cons]
        rw [hpnew]
      have hb1 : (addLocationCommitted db bid req1).businesses.find?
          (fun b => b.id == bid) = some b := by
        rw [hcomm1]
        exact hbf
      have herr : add_business_location (addLocationCommitted db bid req1) bid req2 =
          .error (.conflict "Primary location already exists for this business") := by
        simp only [add_business_location, hb1, hfind1]
      refine ⟨herr, ?_⟩
      have hcomm2 : addLocationCommitted (addLocationCommitted db bid req1) bid req2 =
          addLocationCommitted db bid req1 := by
        rw [hcomm1] at herr ⊢
        simp only [addLocationCommitted, herr]
      rw [hcomm2, hcomm1]
      dsimp only
      rw [List.filter_append]
      have : (newPrimaryLocation db bid req1).business_id == bid := by
        simp [newPrimaryLocation]
      simp [List.filter_cons, this]

/-- The location request used by the C8 witness. -/
def sampleLocReq : BusinessLocationRequest :=
  { latitude := 51, longitude := 2, location_name := some "L2" }

/-- Witness for C8 at the concrete sample state: business 999 is absent
(NotFound, unchanged state); business 1 already has its primary location
(Conflict, unchanged state); business 2 exists with no location, so the
second of two calls conflicts and exactly one location row for it remains. -/
theorem addLocation_notFound_conflict_noDup_witness :
    (add_business_location sampleDB 999 sampleLocReq =
        .error (.notFound ("Business with id " ++ toString 999 ++ " not found")) ∧
      addLocationCommitted sampleDB 999 sampleLocReq = sampleDB) ∧
    (add_business_location sampleDB 1 sampleLocReq =
        .error (.conflict "Primary location already exists for this business") ∧
      addLocationCommitted sampleDB 1 sampleLocReq = sampleDB) ∧
    (add_business_location (addLocationCommitted sampleDB 2 sampleLocReq) 2 sampleLocReq =
        .error (.conflict "Primary location already exists for this business") ∧
      ((addLocationCommitted (addLocationCommitted sampleDB 2 sampleLocReq) 2
            sampleLocReq).locations.filter (fun x => x.business_id == 2)).length =
        (sampleDB.locations.filter (fun x => x.business_id == 2)).length + 1) :=
  ⟨addLocation_notFound_conflict_noDup.1 sampleDB 999 sampleLocReq (by decide),
   addLocation_notFound_conflict_noDup.2.1 sampleDB 1 sampleLocReq
     { id := 10, business_id := 1, location := some (2, 51),
       location_name := some "Loc1", location_index := 1, is_public := true }
     (by decide) (by decide),
   addLocation_notFound_conflict_noDup.2.2 sampleDB 2 sampleLocReq sampleLocReq
     (by decide) (by decide)⟩

/-! ## SetOpeningHours: replace semantics and validation -/

/-- The rows the insert loop of `add_business_opening_hours` appends for a
fully valid batch, with ids counted from `n`. -/
def buildRows (location_id : Nat) : Nat → List OpeningHourRequest → List OpeningHoursRow
  | _, [] => []
  | n, h :: rest => mkHourRow location_id n h :: buildRows location_id (n + 1) rest

/-- On a batch whose days are all in [0,6] the insert loop succeeds, appends
exactly the normalised rows, and echoes them. -/
theorem insertHoursLoop_ok (location_id : Nat) :
    ∀ (hours : List OpeningHourRequest) (db : DB),
      (∀ h ∈ hours, 0 ≤ h.day_of_week ∧ h.day_of_week ≤ 6) →
      insertHoursLoop location_id db hours =
        .ok ({ db with
                 openingHours := db.openingHours ++ buildRows location_id db.nextId hours
                 nextId := db.nextId + hours.length },
             buildRows location_id db.nextId hours) := by
  intro hours
  induction hours with
  | nil =>
    intro db hvalid
    simp only [insertHoursLoop, buildRows, List.append_nil, List.length_nil,
      Nat.add_zero]
  | cons h rest ih =>
    intro db hvalid
    have hh := hvalid h (List.mem_cons_self h rest)
    have hday : ¬(h.day_of_week < 0 ∨ 6 < h.day_of_week) := by omega
    simp only [insertHoursLoop]
    rw [if_neg hday]
    rw [ih _ (fun x hx => hvalid x (List.mem_cons_of_mem _ hx))]
    simp only [buildRows, List.length_cons, List.append_assoc, List.singleton_append]
    have hn : db.nextId + 1 + rest.length = db.nextId + (rest.length + 1) := by omega
    rw [hn]

theorem buildRows_filter_self (location_id : Nat) :
    ∀ (hours : List OpeningHourRequest) (n : Nat),
      (buildRows location_id n hours).filter (fun r => r.location_id == location_id) =
        buildRows location_id n hours := by
  intro hours
  induction hours with
  | nil => intro n; rfl
  | cons h rest ih =>
    intro n
    have hp : ((mkHourRow location_id n h).location_id == location_id) = true := by
      simp [mkHourRow]
    simp only [buildRows, List.filter_cons, hp, if_true, ih]

theorem buildRows_filter_other (location_id : Nat) :
    ∀ (hours : List OpeningHourRequest) (n : Nat),
      (buildRows location_id n hours).filter
          (fun r => !(r.location_id == location_id)) = [] := by
  intro hours
  induction hours with
  | nil => intro n; rfl
  | cons h rest ih =>
    intro n
    have hp : (!((mkHourRow location_id n h).location_id == location_id)) = false := by
      simp [mkHourRow]
    simp only [buildRows, List.filter_cons, hp]
    exact ih (n + 1)

theorem buildRows_strip (location_id : Nat) :
    ∀ (hours : List OpeningHourRequest) (n : Nat),
      (buildRows location_id n hours).map
          (fun r => (r.day_of_week, r.open_time, r.close_time, r.is_closed)) =
        hours.map (fun h => (h.day_of_week, normTimeField h.is_closed h.open_time,
          normTimeField h.is_closed h.close_time, h.is_closed)) := by
  intro hours
  induction hours with
  | nil => intro n; rfl
  | cons h rest ih =>
    intro n
    simp only [buildRows, List.map_cons, mkHourRow, ih]

/-- C3: for a business with a primary location and entries whose days are all
in [0,6], `SetOpeningHours` succeeds and fully replaces that location's
stored hours: afterwards the rows for that location are exactly the submitted
entries (times normalised to `HH:MM:SS`, falsy times stored as null), nothing
stored before for it survives, and rows of other locations are untouched; in
particular an empty batch leaves the location with zero rows. -/
theorem setOpeningHours_full_replace (db : DB) (bid : Nat)
    (hours : List OpeningHourRequest) (loc : LocationRow)
    (hb : (db.businesses.find? (fun b => b.id == bid)).isSome = true)
    (hl : db.locations.find?
      (fun l => l.business_id == bid && l.location_index == 1) = some loc)
    (hdays : ∀ h ∈ hours, 0 ≤ h.day_of_week ∧ h.day_of_week ≤ 6) :
    ∃ db2 ins, add_business_opening_hours db bid hours = .ok (db2, ins) ∧
      (db2.openingHours.filter (fun r => r.location_id == loc.id)).map
          (fun r => (r.day_of_week, r.open_time, r.close_time, r.is_closed)) =
        hours.map (fun h => (h.day_of_week, normTimeField h.is_closed h.open_time,
          normTimeField h.is_closed h.close_time, h.is_closed)) ∧
      db2.openingHours.filter (fun r => !(r.location_id == loc.id)) =
        db.openingHours.filter (fun r => !(r.location_id == loc.id)) := by
  cases hbf : db.businesses.find? (fun b => b.id == bid) with
  | none => rw [hbf] at hb; cases hb
  | some b =>
    have hadd : add_business_opening_hours db bid hours =
        insertHoursLoop loc.id
          { db with
              openingHours := db.openingHours.filter
                (fun r => !(r.location_id == loc.id)) }
          hours := by
      simp only [add_business_opening_hours, hbf, hl]
    rw [hadd, insertHoursLoop_ok loc.id hours _ hdays]
    refine ⟨_, _, rfl, ?_, ?_⟩
    · dsimp only
      rw [List.filter_append]
      have h1 : (db.openingHours.filter
          (fun r => !(r.location_id == loc.id))).filter
            (fun r => r.location_id == loc.id) = [] := by
        rw [List.filter_filter]
        apply List.filter_eq_nil_iff.mpr
        intro a _
        cases hc : (a.location_id == loc.id) <;> simp [hc]
      rw [h1, List.nil_append, buildRows_filter_self, buildRows_strip]
    · dsimp only
      rw [List.filter_append, buildRows_filter_other, List.append_nil,
        List.filter_filter]
      congr 1
      funext a
      cases hc : (a.location_id == loc.id) <;> simp [hc]

/-- `sampleDB` together with one stored opening-hours row for business 1's
primary location (used to exercise replacement/rollback). -/
def sampleDBH : DB :=
  { sampleDB with
      openingHours := [{ id := 30, location_id := 10, day_of_week := 2,
                         open_time := some "08:00:00", close_time := some "12:00:00",
                         is_closed := false }] }

/-- Business 1's primary location row in `sampleDB`/`sampleDBH`. -/
def sampleLoc : LocationRow :=
  { id := 10, business_id := 1, location := some (2, 51),
    location_name := some "Loc1", location_index := 1, is_public := true }

/-- Witness for C3 at the concrete sample state: the empty-batch replace on a
location holding one stored row succeeds and leaves it with zero rows. -/
theorem setOpeningHours_full_replace_witness :
    ∃ db2 ins, add_business_opening_hours sampleDBH 1 [] = .ok (db2, ins) ∧
      (db2.openingHours.filter (fun r => r.location_id == sampleLoc.id)).map
          (fun r => (r.day_of_week, r.open_time, r.close_time, r.is_closed)) =
        ([] : List OpeningHourRequest).map
          (fun h => (h.day_of_week, normTimeField h.is_closed h.open_time,
            normTimeField h.is_closed h.close_time, h.is_closed)) ∧
      db2.openingHours.filter (fun r => !(r.location_id == sampleLoc.id)) =
        sampleDBH.openingHours.filter (fun r => !(r.location_id == sampleLoc.id)) :=
  setOpeningHours_full_replace sampleDBH 1 [] sampleLoc (by decide) (by decide)
    (by decide)

/-- A batch containing an out-of-range day makes the insert loop fail with the
`Validation` message of the first such entry. -/
theorem insertHoursLoop_firstBad (location_id : Nat) :
    ∀ (hours : List OpeningHourRequest) (db : DB) (h0 : OpeningHourRequest),
      hours.find? (fun h => decide (h.day_of_week < 0 ∨ 6 < h.day_of_week)) = some h0 →
      insertHoursLoop location_id db hours =
        .error (.validation ("Invalid day_of_week: " ++ toString h0.day_of_week ++
          ". Must be 0-6 (0=Sun, 6=Sat)")) := by
  intro hours
  induction hours with
  | nil => intro db h0 h; cases h
  | cons h rest ih =>
    intro db h0 hf
    rw [List.find?_cons] at hf
    by_cases hbad : h.day_of_week < 0 ∨ 6 < h.day_of_week
    · have hdec : decide (h.day_of_week < 0 ∨ 6 < h.day_of_week) = true := by
        simpa using hbad
      rw [hdec] at hf
      have hh0 : h = h0 := by simpa using hf
      simp only [insertHoursLoop]
      rw [if_pos hbad, hh0]
    · have hdec : decide (h.day_of_week < 0 ∨ 6 < h.day_of_week) = false := by
        simpa using hbad
      rw [hdec] at hf
      simp only [insertHoursLoop]
      rw [if_neg hbad]
      have hrest : rest.find?
          (fun h => decide (h.day_of_week < 0 ∨ 6 < h.day_of_week)) = some h0 := by
        simpa using hf
      rw [ih _ h0 hrest]

/-- C4: a `SetOpeningHours` batch containing an entry with `day_of_week`
outside [0,6] fails as a whole with `Validation` naming the first violating
entry, and the committed state is the original one: the in-transaction delete
and any earlier inserts are rolled back, so the pre-existing hours of the
business's primary location are unchanged. -/
theorem setOpeningHours_invalidDay_rollback (db : DB) (bid : Nat)
    (hours : List OpeningHourRequest) (loc : LocationRow) (h0 : OpeningHourRequest)
    (hb : (db.businesses.find? (fun b => b.id == bid)).isSome = true)
    (hl : db.locations.find?
      (fun l => l.business_id == bid && l.location_index == 1) = some loc)
    (hbad : hours.find?
      (fun h => decide (h.day_of_week < 0 ∨ 6 < h.day_of_week)) = some h0) :
    add_business_opening_hours db bid hours =
      .error (.validation ("Invalid day_of_week: " ++ toString h0.day_of_week ++
        ". Must be 0-6 (0=Sun, 6=Sat)")) ∧
    setHoursCommitted db bid hours = db := by
  cases hbf : db.businesses.find? (fun b => b.id == bid) with
  | none => rw [hbf] at hb; cases hb
  | some b =>
    have hadd : add_business_opening_hours db bid hours =
        insertHoursLoop loc.id
          { db with
              openingHours := db.openingHours.filter
                (fun r => !(r.location_id == loc.id)) }
          hours := by
      simp only [add_business_opening_hours, hbf, hl]
    have herr := insertHoursLoop_firstBad loc.id hours
      { db with
          openingHours := db.openingHours.filter
            (fun r => !(r.location_id == loc.id)) }
      h0 hbad
    constructor
    · rw [hadd, herr]
    · unfold setHoursCommitted
      rw [hadd, herr]

/-- The invalid batch used by the C4 witness: a valid Tuesday entry followed
by an out-of-range day 7. -/
def sampleBadBatch : List OpeningHourRequest :=
  [{ day_of_week := 2, open_time := some "09:00", close_time := some "17:00",
     is_closed := false },
   { day_of_week := 7, open_time := some "09:00", close_time := some "17:00",
     is_closed := false }]

/-- Witness for C4 at the concrete sample state: the batch with day 7 fails
with the `Validation` message for day 7 and leaves `sampleDBH` (including the
stored hours of location 10) unchanged. -/
theorem setOpeningHours_invalidDay_rollback_witness :
    add_business_opening_hours sampleDBH 1 sampleBadBatch =
      .error (.validation ("Invalid day_of_week: " ++ toString (7 : Int) ++
        ". Must be 0-6 (0=Sun, 6=Sat)")) ∧
    setHoursCommitted sampleDBH 1 sampleBadBatch = sampleDBH :=
  setOpeningHours_invalidDay_rollback sampleDBH 1 sampleBadBatch sampleLoc
    { day_of_week := 7, open_time := some "09:00", close_time := some "17:00",
      is_closed := false }
    (by decide) (by decide) (by decide)

/-! ## Bulk import: atomicity -/

/-- C1: every failing bulk-import call — category unresolvable, geocoding
failure, or an injected storage exception during the inserts — leaves the
committed state exactly as it was (full rollback: no Business, Location,
OpeningHours, SocialLinks, Logo or FeatureProposal row of that call remains);
in particular a request whose address fails geocoding always errors and
leaves the business count unchanged. -/
theorem bulkImport_atomic :
    (∀ db req geo fault e, bulk_import_business db req geo fault = .error e →
      bulkCommitted db req geo fault = db) ∧
    (∀ db req fault,
      (∃ e, bulk_import_business db req none fault = .error e) ∧
      (bulkCommitted db req none fault).businesses.length =
        db.businesses.length) := by
  constructor
  · intro db req geo fault e herr
    unfold bulkCommitted
    rw [herr]
  · intro db req fault
    cases hcat : db.categories.find? (fun c => c.category == req.category) with
    | none =>
      constructor
      · exact ⟨.notFound ("Category '" ++ req.category ++ "' not found"),
          by simp only [bulk_import_business, hcat]⟩
      · unfold bulkCommitted
        simp only [bulk_import_business, hcat]
    | some cat =>
      constructor
      · exact ⟨.validation ("Could not geocode address: " ++ req.address),
          by simp only [bulk_import_business, hcat]⟩
      · unfold bulkCommitted
        simp only [bulk_import_business, hcat]

/-- The bulk request whose address fails geocoding (C1 witness). -/
def sampleBulkReq : BulkBusinessImportRequest :=
  { name := "New", category := "Cafe", address := "zzzz-invalid",
    location_name := none, website := none, x_url := none, instagram_url := none,
    facebook_url := none, tiktok_url := none, logo_url := none, oh_monday := none,
    oh_tuesday := none, oh_wednesday := none, oh_thursday := none,
    oh_friday := none, oh_saturday := none, oh_sunday := none, features := none }

/-- Witness for C1 at the concrete sample state: with category "Cafe" present
and geocoding failing, the call errors, the committed state is unchanged, and
the business count is unchanged. -/
theorem bulkImport_atomic_witness :
    bulkCommitted sampleDB sampleBulkReq none false = sampleDB ∧
    (∃ e, bulk_import_business sampleDB sampleBulkReq none false = .error e) ∧
    (bulkCommitted sampleDB sampleBulkReq none false).businesses.length =
      sampleDB.businesses.length :=
  ⟨bulkImport_atomic.1 sampleDB sampleBulkReq none false
      (.validation ("Could not geocode address: " ++ sampleBulkReq.address)) rfl,
   bulkImport_atomic.2 sampleDB sampleBulkReq false⟩

/-! ## Opening-hours row invariant (spec §3) -/

/-- The §3 row invariant: either both times set with `is_closed = false`, or
both null with `is_closed = true`. -/
def OHRowInv (r : OpeningHoursRow) : Prop :=
  (r.is_closed = true ∧ r.open_time = none ∧ r.close_time = none) ∨
  (r.is_closed = false ∧ r.open_time.isSome = true ∧ r.close_time.isSome = true)

/-- The same invariant on a parsed CSV entry. -/
def OHEntryInv (e : OHEntry) : Prop :=
  (e.is_closed = true ∧ e.open_time = none ∧ e.close_time = none) ∨
  (e.is_closed = false ∧ e.open_time.isSome = true ∧ e.close_time.isSome = true)

/-- Every entry the CSV day parser emits satisfies the invariant. -/
theorem parse_day_inv (d : Nat) (s : Option String) (e : OHEntry)
    (h : parse_day d s = some e) : OHEntryInv e := by
  cases s with
  | none => cases h
  | some str =>
    simp only [parse_day] at h
    by_cases h1 : (pyStrip str == "") = true
    · rw [if_pos h1] at h; cases h
    · rw [if_neg h1] at h
      by_cases h2 : (pyLower (pyStrip str) == "closed") = true
      · rw [if_pos h2] at h
        have he := Option.some.inj h
        rw [← he]
        exact Or.inl ⟨rfl, rfl, rfl⟩
      · rw [if_neg h2] at h
        rcases hsplit : pySplitChar (pyStrip str) '-' with _ | ⟨a, _ | ⟨b, _ | _⟩⟩ <;>
          rw [hsplit] at h
        · cases h
        · cases h
        · have he := Option.some.inj h
          rw [← he]
          exact Or.inr ⟨rfl, rfl, rfl⟩
        · cases h

/-- Every entry `parse_opening_hours_csv` emits satisfies the invariant. -/
theorem parse_csv_inv (m t w th f sa su : Option String) (e : OHEntry)
    (h : e ∈ parse_opening_hours_csv m t w th f sa su) : OHEntryInv e := by
  simp only [parse_opening_hours_csv, List.mem_filterMap, id_eq] at h
  obtain ⟨o, ho, hoe⟩ := h
  simp only [List.mem_cons, List.not_mem_nil, or_false] at ho
  rcases ho with rfl | rfl | rfl | rfl | rfl | rfl | rfl <;>
    exact parse_day_inv _ _ _ hoe

/-- Membership in the state after the bulk path's opening-hours inserts: a row
is either pre-existing or carries the fields of one parsed entry. -/
theorem insertParsedHours_mem (location_id : Nat) :
    ∀ (ohs : List OHEntry) (db : DB) (r : OpeningHoursRow),
      r ∈ (insertParsedHours location_id db ohs).openingHours →
      r ∈ db.openingHours ∨ ∃ h ∈ ohs, r.day_of_week = (h.day_of_week : Int) ∧
        r.open_time = h.open_time ∧ r.close_time = h.close_time ∧
        r.is_closed = h.is_closed := by
  intro ohs
  induction ohs with
  | nil => intro db r h; exact Or.inl h
  | cons a t ih =>
    intro db r h
    simp only [insertParsedHours, List.foldl_cons] at h
    rcases ih _ r h with h1 | ⟨hh, hm, hrest⟩
    · rw [List.mem_append] at h1
      rcases h1 with h1 | h1
      · exact Or.inl h1
      · right
        refine ⟨a, List.mem_cons_self a t, ?_⟩
        have hr := List.mem_singleton.mp h1
        rw [hr]
        exact ⟨rfl, rfl, rfl, rfl⟩
    · exact Or.inr ⟨hh, List.mem_cons_of_mem _ hm, hrest⟩

/-- Rows added by `insertParsedHours` from invariant-satisfying entries keep
the row invariant. -/
theorem insertParsedHours_inv (location_id : Nat) (ohs : List OHEntry) (db0 : DB)
    (r : OpeningHoursRow) (hohs : ∀ e ∈ ohs, OHEntryInv e)
    (hr : r ∈ (insertParsedHours location_id db0 ohs).openingHours) :
    r ∈ db0.openingHours ∨ OHRowInv r := by
  rcases insertParsedHours_mem location_id ohs db0 r hr with h1 | ⟨h, hm, hd, ho, hc, hcl⟩
  · exact Or.inl h1
  · right
    rcases hohs h hm with ⟨e1, e2, e3⟩ | ⟨e1, e2, e3⟩
    · exact Or.inl ⟨by rw [hcl, e1], by rw [ho, e2], by rw [hc, e3]⟩
    · exact Or.inr ⟨by rw [hcl, e1], by rw [ho]; exact e2, by rw [hc]; exact e3⟩

/-- The feature-proposal step of the bulk path never touches opening hours. -/
theorem insertFeaturesByName_openingHours (business_id : Nat) :
    ∀ (names : List String) (db : DB),
      ((names.foldl (insertFeatureByName business_id) db).openingHours) =
        db.openingHours := by
  intro names
  induction names with
  | nil => intro db; rfl
  | cons a t ih =>
    intro db
    rw [List.foldl_cons, ih]
    unfold insertFeatureByName
    by_cases h1 : (pyStrip a == "") = true
    · rw [if_pos h1]
    · rw [if_neg h1]
      cases db.features.find? (fun f => f.feature == pyStrip a) <;> rfl

/-- Membership in the state after a successful `SetOpeningHours` insert loop:
a row is either pre-existing or one of the normalised inserted rows. -/
theorem insertHoursLoop_mem (location_id : Nat) :
    ∀ (hours : List OpeningHourRequest) (db db2 : DB) (ins : List OpeningHoursRow)
      (r : OpeningHoursRow),
      insertHoursLoop location_id db hours = .ok (db2, ins) →
      r ∈ db2.openingHours →
      r ∈ db.openingHours ∨ ∃ h ∈ hours, ∃ n, r = mkHourRow location_id n h := by
  intro hours
  induction hours with
  | nil =>
    intro db db2 ins r heq hr
    simp only [insertHoursLoop] at heq
    have hdb := congrArg (fun x => match x with
      | Except.ok (d, _) => d
      | Except.error _ => db) heq
    dsimp only at hdb
    rw [← hdb] at hr
    exact Or.inl hr
  | cons h rest ih =>
    intro db db2 ins r heq hr
    simp only [insertHoursLoop] at heq
    by_cases hbad : h.day_of_week < 0 ∨ 6 < h.day_of_week
    · rw [if_pos hbad] at heq; cases heq
    · rw [if_neg hbad] at heq
      cases hrec : insertHoursLoop location_id
          { db with
              openingHours := db.openingHours ++ [mkHourRow location_id db.nextId h]
              nextId := db.nextId + 1 }
          rest with
      | error e => rw [hrec] at heq; cases heq
      | ok p =>
        obtain ⟨dbr, insr⟩ := p
        rw [hrec] at heq
        have hdb : dbr = db2 := by
          have := congrArg (fun x => match x with
            | Except.ok (d, _) => d
            | Except.error _ => db) heq
          simpa using this
        rw [hdb] at hrec
        rcases ih _ db2 insr r hrec hr with h1 | ⟨hh, hm, n, hrw⟩
        · rw [List.mem_append] at h1
          rcases h1 with h1 | h1
          · exact Or.inl h1
          · exact Or.inr ⟨h, List.mem_cons_self h rest, db.nextId,
              List.mem_singleton.mp h1⟩
        · exact Or.inr ⟨hh, List.mem_cons_of_mem _ hm, n, hrw⟩

/-- A validated entry with both times supplied (or a closed entry) yields a
row satisfying the invariant. -/
theorem mkHourRow_inv (location_id n : Nat) (h : OpeningHourRequest)
    (hcond : h.is_closed = false →
      pyTruthy h.open_time = true ∧ pyTruthy h.close_time = true) :
    OHRowInv (mkHourRow location_id n h) := by
  cases hcl : h.is_closed with
  | true =>
    left
    refine ⟨hcl, ?_, ?_⟩ <;> simp [mkHourRow, normTimeField, hcl]
  | false =>
    right
    obtain ⟨ho, hc⟩ := hcond hcl
    refine ⟨hcl, ?_, ?_⟩
    · cases hot : h.open_time with
      | none => rw [hot] at ho; cases ho
      | some s =>
        rw [hot] at ho
        have hs : (s == "") = false := by simpa [pyTruthy] using ho
        simp [mkHourRow, normTimeField, hcl, hot, hs]
    · cases hct : h.close_time with
      | none => rw [hct] at hc; cases hc
      | some s =>
        rw [hct] at hc
        have hs : (s == "") = false := by simpa [pyTruthy] using hc
        simp [mkHourRow, normTimeField, hcl, hct, hs]

/-- C2 counterexample: `SetOpeningHours` on business 1 with the single entry
`{day 1, open None, close None, is_closed false}` commits a row with
`is_closed = false` and null `open_time`/`close_time`, so it is false that no
operation can commit such a row. -/
theorem openingHours_invariant_counterexample :
    ((setHoursCommitted sampleDB 1
        [{ day_of_week := 1, open_time := none, close_time := none,
           is_closed := false }]).openingHours.any
      (fun r => !r.is_closed && r.open_time.isNone && r.close_time.isNone)) = true := by
  decide

/-- C2 amended: every OpeningHours row stored by `BulkImport` satisfies the
§3 invariant (both times set with `is_closed = false`, or both null with
`is_closed = true`); a `SetOpeningHours` batch also only stores
invariant-satisfying rows provided every non-closed entry supplies truthy
(non-null, non-empty) `open_time` and `close_time` — without that proviso the
operation commits a row with `is_closed = false` and null times, as the
counterexample shows. -/
theorem openingHours_invariant_amended :
    (∀ db req geo fault r, r ∈ (bulkCommitted db req geo fault).openingHours →
      r ∈ db.openingHours ∨ OHRowInv r) ∧
    (∀ db bid hours r,
      (∀ h ∈ hours, h.is_closed = false →
        pyTruthy h.open_time = true ∧ pyTruthy h.close_time = true) →
      r ∈ (setHoursCommitted db bid hours).openingHours →
      r ∈ db.openingHours ∨ OHRowInv r) := by
  constructor
  · intro db req geo fault r hr
    unfold bulkCommitted at hr
    cases hcat : db.categories.find? (fun c => c.category == req.category) with
    | none =>
      simp only [bulk_import_business, hcat] at hr
      exact Or.inl hr
    | some cat =>
      cases geo with
      | none =>
        simp only [bulk_import_business, hcat] at hr
        exact Or.inl hr
      | some g =>
        obtain ⟨lng, lat, place⟩ := g
        by_cases hf : fault = true
        · simp only [bulk_import_business, hcat, hf, if_true] at hr
          exact Or.inl hr
        · simp only [bulk_import_business, hcat, hf, if_false, Bool.false_eq_true] at hr
          rw [insertFeaturesByName_openingHours] at hr
          repeat' split at hr
          all_goals
            exact (insertParsedHours_inv _ _ _ r
              (fun e he => parse_csv_inv _ _ _ _ _ _ _ _ he) hr).imp
              (fun x => x) (fun x => x)
  · intro db bid hours r hcond hr
    unfold setHoursCommitted at hr
    cases hadd : add_business_opening_hours db bid hours with
    | error e => rw [hadd] at hr; exact Or.inl hr
    | ok p =>
      obtain ⟨db2, ins⟩ := p
      rw [hadd] at hr
      unfold add_business_opening_hours at hadd
      cases hbf : db.businesses.find? (fun b => b.id == bid) with
      | none => rw [hbf] at hadd; cases hadd
      | some b =>
        rw [hbf] at hadd
        cases hlf : db.locations.find?
            (fun l => l.business_id == bid && l.location_index == 1) with
        | none => rw [hlf] at hadd; cases hadd
        | some loc =>
          rw [hlf] at hadd
          rcases insertHoursLoop_mem loc.id hours _ db2 ins r hadd hr with
            h1 | ⟨hh, hm, n, hrw⟩
          · exact Or.inl (List.mem_of_mem_filter h1)
          · exact Or.inr (hrw ▸ mkHourRow_inv loc.id n hh (hcond hh hm))

/-- Witness for C2's amended theorem: the row committed by a well-formed
`SetOpeningHours` entry on business 1 is new and satisfies the invariant. -/
theorem openingHours_invariant_amended_witness :
    ({ id := 100, location_id := 10, day_of_week := 2, open_time := some "09:00:00",
       close_time := some "17:00:00", is_closed := false } : OpeningHoursRow) ∈
        sampleDB.openingHours ∨
      OHRowInv { id := 100, location_id := 10, day_of_week := 2,
                 open_time := some "09:00:00", close_time := some "17:00:00",
                 is_closed := false } :=
  openingHours_invariant_amended.2 sampleDB 1
    [{ day_of_week := 2, open_time := some "09:00", close_time := some "17:00",
       is_closed := false }]
    { id := 100, location_id := 10, day_of_week := 2, open_time := some "09:00:00",
      close_time := some "17:00:00", is_closed := false }
    (by decide) (by decide)


/-! ## CSV parser: the example table, the "closed" keyword, and skipping -/

/-- C9: the bulk-import opening-hours parser maps `"09:00-17:00"` to an entry
`{open "09:00:00", close "17:00:00", is_closed false}`, `"closed"` to
`{is_closed true, open null, close null}`, and an empty or missing day string
to no entry at all for that day. -/
theorem parse_examples :
    parse_opening_hours_csv (some "09:00-17:00") none none none none none none =
      [{ day_of_week := 1, open_time := some "09:00:00",
         close_time := some "17:00:00", is_closed := false }] ∧
    parse_opening_hours_csv (some "closed") none none none none none none =
      [{ day_of_week := 1, open_time := none, close_time := none,
         is_closed := true }] ∧
    parse_opening_hours_csv (some "") none none none none none none = [] ∧
    parse_opening_hours_csv none none none none none none none = [] := by
  decide

/-- C10: any day string whose stripped lower-cased form equals `"closed"`
produces the closed entry (`is_closed = true`, null times) — not a skipped
day and not a time-range entry. -/
theorem parse_closed_caseInsensitive (s : String)
    (h : pyLower (pyStrip s) = "closed") :
    parse_opening_hours_csv (some s) none none none none none none =
      [{ day_of_week := 1, open_time := none, close_time := none,
         is_closed := true }] := by
  have h2 : (pyLower (pyStrip s) == "closed") = true := by
    rw [h]
    decide
  have h1 : (pyStrip s == "") = false := by
    cases he : pyStrip s == ""
    · rfl
    · have hse : pyStrip s = "" := by simpa using he
      rw [hse] at h
      exact absurd h (by decide)
  simp [parse_opening_hours_csv, parse_day, h1, h2]

/-- Witness for C10: `" CLOSED "` (upper case, surrounded by whitespace)
parses to the closed entry. -/
theorem parse_closed_caseInsensitive_witness :
    parse_opening_hours_csv (some " CLOSED ") none none none none none none =
      [{ day_of_week := 1, open_time := none, close_time := none,
         is_closed := true }] :=
  parse_closed_caseInsensitive " CLOSED " (by decide)

/-- C5 counterexample: the non-empty day string `"ab-cd"` matches neither the
`"HH:MM-HH:MM"` shape nor `"closed"`, yet the parser does not skip it: it
emits a (nonsense) time-range entry `"ab:00"`–`"cd:00"` because it accepts
any string with exactly one `"-"`. -/
theorem parse_skip_counterexample :
    parse_opening_hours_csv (some "ab-cd") none none none none none none =
      [{ day_of_week := 1, open_time := some "ab:00", close_time := some "cd:00",
         is_closed := false }] ∧
    parse_opening_hours_csv (some "ab-cd") none none none none none none ≠ [] := by
  decide

/-- C5 amended: a non-empty day string that is not `"closed"` (stripped,
case-insensitive) is silently skipped — the day omitted, the batch unharmed —
exactly when it does not split on `"-"` into two parts; and every such string
that does split into exactly two parts is parsed as a time-range entry with
`":00"` appended to parts lacking seconds (`padSeconds`), even if the parts
are not valid `"HH:MM"` times. -/
theorem parse_skip_amended (s : String)
    (h1 : pyStrip s ≠ "")
    (h2 : pyLower (pyStrip s) ≠ "closed") :
    (parse_opening_hours_csv (some s) none none none none none none = [] ↔
      (pySplitChar (pyStrip s) '-').length ≠ 2) ∧
    (∀ a b, pySplitChar (pyStrip s) '-' = [a, b] →
      parse_opening_hours_csv (some s) none none none none none none =
        [{ day_of_week := 1, open_time := some (padSeconds a),
           close_time := some (padSeconds b), is_closed := false }]) := by
  have hb1 : (pyStrip s == "") = false := by simpa using h1
  have hb2 : (pyLower (pyStrip s) == "closed") = false := by simpa using h2
  have hrange : ∀ a b, pySplitChar (pyStrip s) '-' = [a, b] →
      parse_opening_hours_csv (some s) none none none none none none =
        [{ day_of_week := 1, open_time := some (padSeconds a),
           close_time := some (padSeconds b), is_closed := false }] := by
    intro a b hsplit
    simp [parse_opening_hours_csv, parse_day, hb1, hb2, hsplit]
  refine ⟨⟨?_, ?_⟩, hrange⟩
  · intro hres hlen
    obtain ⟨a, b, hsplit⟩ := List.length_eq_two.mp hlen
    rw [hrange a b hsplit] at hres
    cases hres
  · intro hlen
    rcases hsplit : pySplitChar (pyStrip s) '-' with _ | ⟨a, _ | ⟨b, _ | _⟩⟩
    · simp [parse_opening_hours_csv, parse_day, hb1, hb2, hsplit]
    · simp [parse_opening_hours_csv, parse_day, hb1, hb2, hsplit]
    · exact absurd (by rw [hsplit]; rfl) hlen
    · simp [parse_opening_hours_csv, parse_day, hb1, hb2, hsplit]

/-- Witness for C5's amended theorem, both branches at concrete inputs:
`"9am to 5pm"` (no dash) is skipped; `"8-17"` (one dash, not `HH:MM` times)
is parsed as the range `"8:00"`–`"17:00"`. -/
theorem parse_skip_amended_witness :
    parse_opening_hours_csv (some "9am to 5pm") none none none none none none = [] ∧
    parse_opening_hours_csv (some "8-17") none none none none none none =
      [{ day_of_week := 1, open_time := some (padSeconds "8"),
         close_time := some (padSeconds "17"), is_closed := false }] :=
  ⟨(parse_skip_amended "9am to 5pm" (by decide) (by decide)).1.mpr (by decide),
   (parse_skip_amended "8-17" (by decide) (by decide)).2 "8" "17" (by decide)⟩
